import Mathlib

/-!
# Verification of the Dynamatic ASIC export tool

Shallow embedding of `tools/export-asic/export-asic.cpp`: the script-generator
template functions, the LibreLane flow runner, and the `main` driver are
translated into Lean definitions.  Effectful steps (file creation, permission
changes, child processes) are driven by an explicit oracle of outcomes and
recorded as an event trace, so that claims about exit codes and about which
files are written become theorems about the trace.
-/

namespace ExportAsic

/-- `containsStr s sub` : `sub` occurs verbatim (contiguously) inside `s`. -/
def containsStr (s sub : String) : Prop := ∃ l r, s = l ++ (sub ++ r)

/-- Events recording the tool's externally visible effects: error/standard
output, the directory-creation attempt, concretized external-module files,
ordinary file creations with their content, permission changes, and the
external-flow child process. -/
inductive Ev where
  | errMsg (msg : String)
  | outMsg (msg : String)
  | mkdirTry (dir : String)
  | concretizeWrite (name : String)
  | fileWrite (path content : String)
  | chmodFile (path : String)
  | execFlow (cmd : String)
deriving DecidableEq

/-- Whether an event touches the filesystem or spawns a process (anything
other than writing to the output or error streams). -/
def Ev.isFsEffect : Ev → Bool
  | .errMsg _ => false
  | .outMsg _ => false
  | .mkdirTry _ => true
  | .concretizeWrite _ => true
  | .fileWrite _ _ => true
  | .chmodFile _ => true
  | .execFlow _ => true

/-- Whether an event is an ordinary file creation (design/script files). -/
def Ev.isFileWrite : Ev → Bool
  | .fileWrite _ _ => true
  | _ => false

/-- Whether an event is a diagnostic on the error stream. -/
def Ev.isErr : Ev → Bool
  | .errMsg _ => true
  | _ => false

/-- Whether an event runs the external flow child process. -/
def Ev.isExec : Ev → Bool
  | .execFlow _ => true
  | _ => false

/-- Whether an event is the output-directory creation attempt. -/
def Ev.isMkdir : Ev → Bool
  | .mkdirTry _ => true
  | _ => false

/-- Outcome oracle for the effectful steps of `runLibreLaneFlow`. -/
structure FlowWorld where
  scriptCreateOk : Bool
  chmodOk : Bool
  childExit : Int
deriving DecidableEq

/-- The launcher-script text assembled by `runLibreLaneFlow`
(export-asic.cpp:283-292). -/
def libreLaneRunScript (libreLanePath outputDir designName : String) : String :=
  "#!/bin/bash\nset -e\n\n" ++
  ("cd " ++ outputDir ++ "\n") ++
  ("export PDK_ROOT=" ++ libreLanePath ++ "/pdks\n") ++
  ("export OPENLANE_ROOT=" ++ libreLanePath ++ "\n") ++
  "export OPENLANE_IMAGE_NAME=efabless/openlane:current\n" ++
  ("export CARAVEL_ROOT=" ++ libreLanePath ++ "/caravel\n") ++
  "export CARAVEL_LITE=1\n\n" ++
  "# Run LibreLane flow\n" ++
  (libreLanePath ++ "/flow.tcl -design " ++ designName ++ " -tag dynamatic\n")

/-- Mirrors `runLibreLaneFlow` (export-asic.cpp:267-316): fails immediately on
an empty LibreLane path; otherwise writes the launcher script, marks it
executable, and runs it, failing when the script cannot be created, the
permission change fails, or the child exits non-zero.  Returns the
success/failure result together with the event trace. -/
def runLibreLaneFlow (w : FlowWorld)
    (libreLanePath outputDir designName : String) : Bool × List Ev :=
  if libreLanePath = "" then
    (false, [.errMsg "Error: LibreLane path not specified\n"])
  else
    let runScript := outputDir ++ "/run_librelane.sh"
    if w.scriptCreateOk = false then
      (false, [.errMsg "Error: Cannot create LibreLane run script\n"])
    else
      let evs := [Ev.fileWrite runScript
        (libreLaneRunScript libreLanePath outputDir designName)]
      if w.chmodOk = false then
        (false, evs ++ [.chmodFile runScript,
          .errMsg "Error: Failed to make LibreLane script executable\n"])
      else
        let evs := evs ++ [.chmodFile runScript,
          .outMsg "Running LibreLane flow...\n",
          .outMsg ("Command: bash " ++ runScript ++ "\n"),
          .execFlow ("bash " ++ runScript)]
        if w.childExit ≠ 0 then
          (false, evs ++ [.errMsg ("Error: LibreLane flow failed with exit code "
            ++ toString w.childExit ++ "\n")])
        else
          (true, evs ++ [.outMsg "LibreLane flow completed successfully!\n"])

/-- Modelled from the spec: `llvm::sys::fs::create_directories` is a library
collaborator whose implementation is not part of this repository.  Per the
spec (§3 Output Directory), creation is idempotent — a pre-existing directory
is not an error — and parents are created.  `dirs` is the set of existing
directories and `canCreate` says whether a fresh creation would succeed. -/
def create_directories (dirs : List String) (dir : String) (canCreate : Bool) :
    List String × Bool :=
  if dir ∈ dirs then (dirs, true)
  else if canCreate then (dir :: dirs, true) else (dirs, false)

/-- One external hardware module reference of the design: its name, whether
the RTL configuration has a matching rule, and whether its generation
procedure succeeds. -/
structure Ext where
  name : String
  hasMatch : Bool
  genOk : Bool
deriving DecidableEq

/-- The names of external references with no matching generator rule. -/
def unresolvedNames (externals : List Ext) : List String :=
  (externals.filter (fun e => !e.hasMatch)).map (·.name)

/-- The names of matched external references whose generation fails. -/
def genFailedNames (externals : List Ext) : List String :=
  (externals.filter (fun e => e.hasMatch && !e.genOk)).map (·.name)

/-- Modelled from the spec: the definition of
`ASICExportInfo::concretizeExternalModules` is not under src/ (only its
declaration and doc comment at export-asic.cpp:162-167 are).  Per the spec
(§4.4, §7): every external reference is run through the matcher; references
with a match are concretized to one file each; the operation fails if any
reference has no matching rule (emitting a diagnostic naming every unresolved
reference) or fails concretization. -/
def concretizeExternalModules (externals : List Ext) : Bool × List Ev :=
  let writes := (externals.filter (fun e => e.hasMatch && e.genOk)).map
    (fun e => Ev.concretizeWrite e.name)
  let unres := unresolvedNames externals
  let genFail := genFailedNames externals
  if unres.isEmpty && genFail.isEmpty then (true, writes)
  else
    (false, writes ++
      unres.map (fun n =>
        Ev.errMsg ("no RTL component matching external module " ++ n ++ "\n")) ++
      genFail.map (fun n =>
        Ev.errMsg ("failed to concretize external module " ++ n ++ "\n")))

/-- Command-line arguments of the tool (export-asic.cpp:67-105). -/
structure Args where
  inputFilename : String
  outputDir : String
  pdk : String
  library : String
  designName : String
  runLibreLane : Bool
  libreLanePath : String
deriving DecidableEq

/-- Outcome oracle for the effectful steps of `main`. -/
structure MainWorld where
  inputOpenOk : Bool
  parseOk : Bool
  fsDirs : List String
  mkdirCanCreate : Bool
  rtlConfigs : List (String × Bool)
  externals : List Ext
  modules : List String
  designVOpenOk : Bool
  synthOpenOk : Bool
  configOpenOk : Bool
  flow : FlowWorld
deriving DecidableEq

/-- The first RTL configuration file that fails to parse, if any
(export-asic.cpp:361-367 aborts on the first failure). -/
def firstFailingConfig (cs : List (String × Bool)) : Option String :=
  (cs.find? (fun c => !c.2)).map (·.1)

/-- The stub written for one top-level module (export-asic.cpp:388-392). -/
def moduleStub (name : String) : String :=
  ("// Module: " ++ name ++ "\n") ++
  ("module " ++ name ++ "();\n") ++
  "  // TODO: Implement module body\n" ++ "endmodule\n\n"

/-- Content of `<design-name>.v`: one stub per top-level module, in the
design's enumeration order (export-asic.cpp:387-393). -/
def designFileContent (modules : List String) : String :=
  String.join (modules.map moduleStub)

/-- The liberty timing-library path used (three times, identically) inside
`createASICSynthesisScript` (export-asic.cpp:201,202,209). -/
def libertyPath (pdk library : String) : String :=
  "$::env(PDK_ROOT)/" ++ pdk ++ "/libs.ref/" ++ library ++ "/liberty/" ++
  library ++ "__tt_025C_1v80.lib"

/-- The synthesized-netlist path `outputDir + "/" + designName +
"_synthesized.v"` (export-asic.cpp:205,227). -/
def synthesizedNetlistPath (outputDir designName : String) : String :=
  outputDir ++ "/" ++ designName ++ "_synthesized.v"

/-- Mirrors `createASICSynthesisScript` (export-asic.cpp:177-213): a Yosys
synthesis script built purely by string concatenation (here: a join of the
concatenated pieces in source order) from the four arguments. -/
def createASICSynthesisScript (designName pdk library outputDir : String) :
    String :=
  String.join [
    "\n# ASIC Synthesis Script for ", designName,
    "\n# Generated by Dynamatic ASIC Export Tool\n\n# Read design files\n",
    "read_verilog ", outputDir, "/", designName, ".v\n",
    "\n# Hierarchy check\nhierarchy -check -top ", designName,
    "\n\n# High-level synthesis\nproc; opt; fsm; opt; memory; opt\n\n",
    "# Technology mapping\ntechmap; opt\n\n# Map to standard cells\n",
    "dfflibmap -liberty ", libertyPath pdk library, "\n",
    "abc -liberty ", libertyPath pdk library, "\n\n",
    "# Write synthesized netlist\nwrite_verilog -noattr ",
    synthesizedNetlistPath outputDir designName,
    "\nwrite_liberty ", outputDir, "/", designName,
    ".lib\n\n# Write statistics\n",
    "stat -liberty ", libertyPath pdk library, "\n"]

/-- Mirrors `createLibreLaneConfig` (export-asic.cpp:216-264): the LibreLane
configuration text built purely by string concatenation (here: a join of the
concatenated pieces in source order) from the four arguments. -/
def createLibreLaneConfig (designName pdk library outputDir : String) :
    String :=
  String.join [
    "\n# LibreLane Configuration for ", designName,
    "\n# Generated by Dynamatic ASIC Export Tool\n\n",
    "set ::env(DESIGN_NAME) \"", designName,
    "\"\nset ::env(VERILOG_FILES) \"",
    synthesizedNetlistPath outputDir designName,
    "\"\nset ::env(PDK) \"", pdk,
    "\"\nset ::env(STD_CELL_LIBRARY) \"", library,
    "\"\n\n# Design configuration\n",
    "set ::env(CLOCK_PERIOD) \"10.0\"", "\n",
    "set ::env(CLOCK_PORT) \"clock\"", "\nset ::env(CLOCK_NET) \"clock\"\n\n",
    "# Floorplan configuration\n",
    "set ::env(DIE_AREA) \"0 0 1000 1000\"",
    "\nset ::env(PLACE_SITE) \"unithd\"\n",
    "set ::env(PLACE_DENSITY) \"0.6\"",
    "\n\n# Synthesis configuration\nset ::env(SYNTH_STRATEGY) \"DELAY 0\"\n",
    "set ::env(SYNTH_MAX_FANOUT) \"5\"\n\n",
    "# Place and Route configuration\nset ::env(PLACE_SITE) \"unithd\"\n",
    "set ::env(PLACE_DENSITY) \"0.6\"\nset ::env(ROUTING_STRATEGY) \"2\"\n\n",
    "# Timing configuration\nset ::env(STA_WRITE_LIB) \"1\"\n",
    "set ::env(STA_USE_ARC_ENERGY) \"1\"\n\n",
    "# Power configuration\nset ::env(POWER_OPTIMIZATION) \"1\"\n\n",
    "# Verification\nset ::env(RUN_KLAYOUT_DRC) \"1\"\n",
    "set ::env(RUN_KLAYOUT_XOR) \"1\"\n"]

/-- The concatenation of the two generated script texts, for claims about the
combined output of the two generators. -/
def combinedScriptOutput (designName pdk library outputDir : String) : String :=
  createASICSynthesisScript designName pdk library outputDir ++
  createLibreLaneConfig designName pdk library outputDir

/-- Mirrors `main` (export-asic.cpp:320-430): parse input, create the output
directory, parse RTL configurations, concretize external modules, write
`<design-name>.v`, write `synthesize.tcl` and `config.tcl` (each silently
skipped if its stream fails to open), and optionally run the LibreLane flow.
Returns the process exit code and the event trace. -/
def mainRun (a : Args) (w : MainWorld) : Nat × List Ev :=
  if w.inputOpenOk = false then
    (1, [.errMsg ("Could not open input file " ++ a.inputFilename ++ "\n")])
  else if w.parseOk = false then
    (1, [.errMsg "Error: Could not parse the input file\n"])
  else
    let mk := create_directories w.fsDirs a.outputDir w.mkdirCanCreate
    let evs := [Ev.mkdirTry a.outputDir]
    if mk.2 = false then
      (1, evs ++ [.errMsg ("Error: Could not create output directory "
        ++ a.outputDir ++ "\n")])
    else
      match firstFailingConfig w.rtlConfigs with
      | some f =>
          (1, evs ++ [.errMsg ("Error: Could not parse RTL configuration file "
            ++ f ++ "\n")])
      | none =>
        let c := concretizeExternalModules w.externals
        let evs := evs ++ c.2
        if c.1 = false then
          (1, evs ++ [.errMsg "Error: Failed to concretize external modules\n"])
        else
          let designFile := a.outputDir ++ "/" ++ a.designName ++ ".v"
          if w.designVOpenOk = false then
            (1, evs ++ [.errMsg ("Error: Could not create design file "
              ++ designFile ++ "\n")])
          else
            let evs := evs ++ [Ev.fileWrite designFile
              (designFileContent w.modules)]
            let evs := evs ++ (if w.synthOpenOk then
                [Ev.fileWrite (a.outputDir ++ "/synthesize.tcl")
                  (createASICSynthesisScript a.designName a.pdk a.library
                    a.outputDir)]
              else [])
            let evs := evs ++ (if w.configOpenOk then
                [Ev.fileWrite (a.outputDir ++ "/config.tcl")
                  (createLibreLaneConfig a.designName a.pdk a.library
                    a.outputDir)]
              else [])
            let evs := evs ++ [Ev.outMsg "ASIC export completed successfully!\n"]
            if a.runLibreLane then
              let f := runLibreLaneFlow w.flow a.libreLanePath a.outputDir
                a.designName
              if f.1 = false then
                (1, evs ++ f.2 ++ [.errMsg "Error: LibreLane flow failed\n"])
              else (0, evs ++ f.2)
            else (0, evs)

/-- Whether an event writes an output artifact (a design/script file or a
concretized external-module file). -/
def Ev.isArtifactWrite : Ev → Bool
  | .fileWrite _ _ => true
  | .concretizeWrite _ => true
  | _ => false

/-! ## Concrete fixtures used by witnesses and counterexamples -/

/-- Arguments fixture: the tool's default option values. -/
def argsA : Args :=
  ⟨"in.mlir", "out", "sky130", "sky130_fd_sc_hd", "dynamatic_design", false, ""⟩

/-- Flow-oracle fixture where every step of the flow succeeds. -/
def flowOkW : FlowWorld := ⟨true, true, 0⟩

/-- Flow-oracle fixture where the child process exits with code 2. -/
def flowChildFailW : FlowWorld := ⟨true, true, 2⟩

/-- World fixture where every effectful step succeeds. -/
def worldOk : MainWorld :=
  ⟨true, true, [], true, [("rtl.json", true)], [⟨"adder", true, true⟩],
    ["dynamatic_design"], true, true, true, flowOkW⟩

/-- World fixture where the external reference `adder` has no match. -/
def worldResFail : MainWorld :=
  { worldOk with externals := [⟨"adder", false, true⟩] }

/-- World fixture where opening `synthesize.tcl` fails. -/
def worldSynthFail : MainWorld := { worldOk with synthOpenOk := false }

/-- World fixture where output-directory creation fails. -/
def worldMkdirFail : MainWorld := { worldOk with mkdirCanCreate := false }

/-- World fixture where opening `<design-name>.v` fails. -/
def worldDesignFail : MainWorld := { worldOk with designVOpenOk := false }

/-! ## Helper lemmas about string containment -/

theorem containsStr_refl (s : String) : containsStr s s :=
  ⟨"", "", by simp⟩

theorem containsStr_append_left {s sub : String} (t : String)
    (h : containsStr s sub) : containsStr (t ++ s) sub := by
  obtain ⟨l, r, rfl⟩ := h
  exact ⟨t ++ l, r, by rw [String.append_assoc]⟩

theorem containsStr_append_right {s sub : String} (t : String)
    (h : containsStr s sub) : containsStr (s ++ t) sub := by
  obtain ⟨l, r, rfl⟩ := h
  exact ⟨l, r ++ t, by rw [String.append_assoc, String.append_assoc]⟩

theorem containsStr_join_of_mem {x : String} {L : List String} (h : x ∈ L) :
    containsStr (String.join L) x := by
  obtain ⟨A, B, rfl⟩ := List.append_of_mem h
  refine ⟨String.join A, String.join B, ?_⟩
  apply String.ext
  simp [String.data_join, String.data_append]

theorem containsStr_trans {s t u : String} (h₁ : containsStr s t)
    (h₂ : containsStr t u) : containsStr s u := by
  obtain ⟨l, r, rfl⟩ := h₁
  obtain ⟨l₂, r₂, rfl⟩ := h₂
  exact ⟨l ++ l₂, r₂ ++ r, by simp [String.append_assoc]⟩

/-! ## Containment facts about the two generated texts -/

theorem libertyPath_contains_pdk (p l : String) :
    containsStr (libertyPath p l) p := by
  unfold libertyPath
  exact containsStr_append_right _ (containsStr_append_right _
    (containsStr_append_right _ (containsStr_append_right _
      (containsStr_append_right _ (containsStr_append_left _
        (containsStr_refl p))))))

theorem libertyPath_contains_library (p l : String) :
    containsStr (libertyPath p l) l := by
  unfold libertyPath
  exact containsStr_append_right _ (containsStr_append_left _
    (containsStr_refl l))

theorem script_contains_designName (d p l o : String) :
    containsStr (createASICSynthesisScript d p l o) d := by
  unfold createASICSynthesisScript
  exact containsStr_join_of_mem (by simp)

theorem script_contains_pdk (d p l o : String) :
    containsStr (createASICSynthesisScript d p l o) p := by
  unfold createASICSynthesisScript
  exact containsStr_trans
    (containsStr_join_of_mem (show libertyPath p l ∈ _ by simp))
    (libertyPath_contains_pdk p l)

theorem script_contains_library (d p l o : String) :
    containsStr (createASICSynthesisScript d p l o) l := by
  unfold createASICSynthesisScript
  exact containsStr_trans
    (containsStr_join_of_mem (show libertyPath p l ∈ _ by simp))
    (libertyPath_contains_library p l)

theorem script_contains_libertyPath (d p l o : String) :
    containsStr (createASICSynthesisScript d p l o) (libertyPath p l) := by
  unfold createASICSynthesisScript
  exact containsStr_join_of_mem (by simp)

theorem script_contains_netlistPath (d p l o : String) :
    containsStr (createASICSynthesisScript d p l o)
      (synthesizedNetlistPath o d) := by
  unfold createASICSynthesisScript
  exact containsStr_join_of_mem (by simp)

theorem config_contains_designName (d p l o : String) :
    containsStr (createLibreLaneConfig d p l o) d := by
  unfold createLibreLaneConfig
  exact containsStr_join_of_mem (by simp)

theorem config_contains_pdk (d p l o : String) :
    containsStr (createLibreLaneConfig d p l o) p := by
  unfold createLibreLaneConfig
  exact containsStr_join_of_mem (by simp)

theorem config_contains_library (d p l o : String) :
    containsStr (createLibreLaneConfig d p l o) l := by
  unfold createLibreLaneConfig
  exact containsStr_join_of_mem (by simp)

theorem config_contains_netlistPath (d p l o : String) :
    containsStr (createLibreLaneConfig d p l o)
      (synthesizedNetlistPath o d) := by
  unfold createLibreLaneConfig
  exact containsStr_join_of_mem (by simp)

theorem config_contains_clockPeriod (d p l o : String) :
    containsStr (createLibreLaneConfig d p l o)
      "set ::env(CLOCK_PERIOD) \"10.0\"" := by
  unfold createLibreLaneConfig
  exact containsStr_join_of_mem (by simp)

theorem config_contains_clockPort (d p l o : String) :
    containsStr (createLibreLaneConfig d p l o)
      "set ::env(CLOCK_PORT) \"clock\"" := by
  unfold createLibreLaneConfig
  exact containsStr_join_of_mem (by simp)

theorem config_contains_dieArea (d p l o : String) :
    containsStr (createLibreLaneConfig d p l o)
      "set ::env(DIE_AREA) \"0 0 1000 1000\"" := by
  unfold createLibreLaneConfig
  exact containsStr_join_of_mem (by simp)

theorem config_contains_placeDensity (d p l o : String) :
    containsStr (createLibreLaneConfig d p l o)
      "set ::env(PLACE_DENSITY) \"0.6\"" := by
  unfold createLibreLaneConfig
  exact containsStr_join_of_mem (by simp)

/-! ## Trace facts about concretization and the flow runner -/

theorem concretize_countP_fileWrite (ex : List Ext) :
    (concretizeExternalModules ex).2.countP Ev.isFileWrite = 0 := by
  simp only [concretizeExternalModules]
  split <;> simp [List.countP_eq_zero, Ev.isFileWrite]

theorem concretize_countP_mkdir (ex : List Ext) :
    (concretizeExternalModules ex).2.countP Ev.isMkdir = 0 := by
  simp only [concretizeExternalModules]
  split <;> simp [List.countP_eq_zero, Ev.isMkdir]

theorem flow_countP_mkdir (fw : FlowWorld) (p o d : String) :
    (runLibreLaneFlow fw p o d).2.countP Ev.isMkdir = 0 := by
  simp only [runLibreLaneFlow]
  split
  · simp [Ev.isMkdir]
  · split
    · simp [Ev.isMkdir]
    · split
      · simp [Ev.isMkdir, List.countP_cons, List.countP_append]
      · split <;> simp [Ev.isMkdir, List.countP_cons, List.countP_append]

theorem flow_countP_exec_le_one (fw : FlowWorld) (p o d : String) :
    (runLibreLaneFlow fw p o d).2.countP Ev.isExec ≤ 1 := by
  simp only [runLibreLaneFlow]
  split
  · simp [Ev.isExec]
  · split
    · simp [Ev.isExec]
    · split
      · simp [Ev.isExec, List.countP_cons, List.countP_append]
      · split <;> simp [Ev.isExec, List.countP_cons, List.countP_append]

/-! ## Claim C1 -/

/-- C1: if resolution of external modules fails, the run exits with code 1
and zero top-level design or script files are written — the event trace
contains no ordinary file-creation event at all, in particular none for
`<design-name>.v`, `synthesize.tcl`, or `config.tcl`. -/
theorem C1_resolution_failure_no_emission (a : Args) (w : MainWorld)
    (h : (concretizeExternalModules w.externals).1 = false) :
    (mainRun a w).1 = 1 ∧ (mainRun a w).2.countP Ev.isFileWrite = 0 := by
  cases hin : w.inputOpenOk <;>
  cases hp : w.parseOk <;>
  cases hmk : (create_directories w.fsDirs a.outputDir w.mkdirCanCreate).2 <;>
  cases hff : firstFailingConfig w.rtlConfigs <;>
  simp [mainRun, hin, hp, hmk, hff, h, Ev.isFileWrite, List.countP_cons,
    List.countP_append, concretize_countP_fileWrite]

/-- Witness for C1 at a concrete run whose only external reference `adder`
has no matching rule. -/
theorem C1_witness :
    (concretizeExternalModules worldResFail.externals).1 = false ∧
    ((mainRun argsA worldResFail).1 = 1 ∧
     (mainRun argsA worldResFail).2.countP Ev.isFileWrite = 0) :=
  ⟨by decide, C1_resolution_failure_no_emission argsA worldResFail (by decide)⟩

/-! ## Claim C2 -/

/-- C2 counterexample: the claim "every I/O failure during the emission stage
exits with code 1 and writes a diagnostic; exit code 0 occurs only when every
emission write succeeded" is false on the code.  In this concrete run the
`synthesize.tcl` stream fails to open — an emission I/O failure — yet the
process exits with code 0 and writes no diagnostic to the error stream,
because export-asic.cpp:401 silently skips the write when the stream is not
open. -/
theorem C2_counterexample :
    worldSynthFail.synthOpenOk = false ∧
    (mainRun argsA worldSynthFail).1 = 0 ∧
    (mainRun argsA worldSynthFail).2.countP Ev.isErr = 0 := by
  decide

/-- C2 (amended): during emission, only a failure to create `<design-name>.v`
is fatal — it exits with code 1 and writes a diagnostic to the error stream;
failures to create `synthesize.tcl` or `config.tcl` are silently ignored (the
write is skipped and the run continues), so with the flow not requested the
run exits 0 regardless of whether those two writes succeeded. -/
theorem C2_amended_design_file_failure_only (a : Args) (w : MainWorld)
    (hin : w.inputOpenOk = true) (hp : w.parseOk = true)
    (hmk : (create_directories w.fsDirs a.outputDir w.mkdirCanCreate).2 = true)
    (hff : firstFailingConfig w.rtlConfigs = none)
    (hc : (concretizeExternalModules w.externals).1 = true) :
    (w.designVOpenOk = false →
      (mainRun a w).1 = 1 ∧ 0 < (mainRun a w).2.countP Ev.isErr) ∧
    (w.designVOpenOk = true → a.runLibreLane = false →
      (mainRun a w).1 = 0) := by
  constructor
  · intro hd
    constructor
    · simp [mainRun, hin, hp, hmk, hff, hc, hd]
    · simp [mainRun, hin, hp, hmk, hff, hc, hd, List.countP_append,
        List.countP_cons, Ev.isErr]
  · intro hd hrl
    simp [mainRun, hin, hp, hmk, hff, hc, hd, hrl]

/-- Witness for the amended C2 at a concrete run where creating
`<design-name>.v` fails. -/
theorem C2_amended_witness :
    (worldDesignFail.inputOpenOk = true ∧ worldDesignFail.parseOk = true ∧
     (create_directories worldDesignFail.fsDirs argsA.outputDir
       worldDesignFail.mkdirCanCreate).2 = true ∧
     firstFailingConfig worldDesignFail.rtlConfigs = none ∧
     (concretizeExternalModules worldDesignFail.externals).1 = true) ∧
    ((worldDesignFail.designVOpenOk = false →
       (mainRun argsA worldDesignFail).1 = 1 ∧
       0 < (mainRun argsA worldDesignFail).2.countP Ev.isErr) ∧
     (worldDesignFail.designVOpenOk = true → argsA.runLibreLane = false →
       (mainRun argsA worldDesignFail).1 = 0)) :=
  ⟨⟨by decide, by decide, by decide, by decide, by decide⟩,
   C2_amended_design_file_failure_only argsA worldDesignFail (by decide)
     (by decide) (by decide) (by decide) (by decide)⟩

/-! ## Claim C5 -/

/-- C5: `createASICSynthesisScript` and `createLibreLaneConfig` are (by
construction of the embedding) pure functions of their four string arguments
with no filesystem access, and for every input — including empty strings —
the returned text contains the `designName`, `pdk`, and `library` argument
strings verbatim. -/
theorem C5_generators_embed_arguments (d p l o : String) :
    (containsStr (createASICSynthesisScript d p l o) d ∧
     containsStr (createASICSynthesisScript d p l o) p ∧
     containsStr (createASICSynthesisScript d p l o) l) ∧
    (containsStr (createLibreLaneConfig d p l o) d ∧
     containsStr (createLibreLaneConfig d p l o) p ∧
     containsStr (createLibreLaneConfig d p l o) l) :=
  ⟨⟨script_contains_designName d p l o, script_contains_pdk d p l o,
    script_contains_library d p l o⟩,
   config_contains_designName d p l o, config_contains_pdk d p l o,
   config_contains_library d p l o⟩

/-! ## Claim C6 -/

/-- C6: the combined output of the two script generators contains every
required substitution point: the design name, the process-design-kit
identifier, the standard-cell library identifier, the synthesized-netlist
path (built from the output directory and design name), the liberty
timing-library path (built from the PDK and library), the clock period and
clock port settings, the die-area geometry, and the placement density. -/
theorem C6_combined_output_substitution_points (d p l o : String) :
    containsStr (combinedScriptOutput d p l o) d ∧
    containsStr (combinedScriptOutput d p l o) p ∧
    containsStr (combinedScriptOutput d p l o) l ∧
    containsStr (combinedScriptOutput d p l o) (synthesizedNetlistPath o d) ∧
    containsStr (combinedScriptOutput d p l o) (libertyPath p l) ∧
    containsStr (combinedScriptOutput d p l o)
      "set ::env(CLOCK_PERIOD) \"10.0\"" ∧
    containsStr (combinedScriptOutput d p l o)
      "set ::env(CLOCK_PORT) \"clock\"" ∧
    containsStr (combinedScriptOutput d p l o)
      "set ::env(DIE_AREA) \"0 0 1000 1000\"" ∧
    containsStr (combinedScriptOutput d p l o)
      "set ::env(PLACE_DENSITY) \"0.6\"" :=
  ⟨containsStr_append_right _ (script_contains_designName d p l o),
   containsStr_append_right _ (script_contains_pdk d p l o),
   containsStr_append_right _ (script_contains_library d p l o),
   containsStr_append_right _ (script_contains_netlistPath d p l o),
   containsStr_append_right _ (script_contains_libertyPath d p l o),
   containsStr_append_left _ (config_contains_clockPeriod d p l o),
   containsStr_append_left _ (config_contains_clockPort d p l o),
   containsStr_append_left _ (config_contains_dieArea d p l o),
   containsStr_append_left _ (config_contains_placeDensity d p l o)⟩

/-! ## Claim C10 -/

/-- C10: for every input quadruple, the text returned by
`createLibreLaneConfig` contains the fixed constants
`CLOCK_PERIOD "10.0"`, `CLOCK_PORT "clock"`, `DIE_AREA "0 0 1000 1000"`, and
`PLACE_DENSITY "0.6"`; since this holds for all inputs, these settings never
vary with any input. -/
theorem C10_config_fixed_constants (d p l o : String) :
    containsStr (createLibreLaneConfig d p l o)
      "set ::env(CLOCK_PERIOD) \"10.0\"" ∧
    containsStr (createLibreLaneConfig d p l o)
      "set ::env(CLOCK_PORT) \"clock\"" ∧
    containsStr (createLibreLaneConfig d p l o)
      "set ::env(DIE_AREA) \"0 0 1000 1000\"" ∧
    containsStr (createLibreLaneConfig d p l o)
      "set ::env(PLACE_DENSITY) \"0.6\"" :=
  ⟨config_contains_clockPeriod d p l o, config_contains_clockPort d p l o,
   config_contains_dieArea d p l o, config_contains_placeDensity d p l o⟩

/-! ## Claim C3 -/

/-- C3: for every oracle, output directory, and design name, calling the flow
runner with an empty backend-flow path fails immediately with the
configuration diagnostic and performs no filesystem effects: no launcher
script is created, no permission change happens, and no child process is
run. -/
theorem C3_empty_flow_path_no_side_effects (w : FlowWorld) (o d : String) :
    runLibreLaneFlow w "" o d =
      (false, [.errMsg "Error: LibreLane path not specified\n"]) ∧
    (runLibreLaneFlow w "" o d).2.countP Ev.isFsEffect = 0 := by
  constructor
  · simp [runLibreLaneFlow]
  · simp [runLibreLaneFlow, Ev.isFsEffect]

/-! ## Facts about directory creation and the mkdir event -/

theorem create_directories_preexisting (dirs : List String) (dir : String)
    (c : Bool) (h : dir ∈ dirs) : create_directories dirs dir c = (dirs, true) := by
  simp [create_directories, h]

theorem create_directories_idem (dirs : List String) (dir : String)
    (c c₂ : Bool) (h : (create_directories dirs dir c).2 = true) :
    create_directories (create_directories dirs dir c).1 dir c₂ =
      ((create_directories dirs dir c).1, true) := by
  by_cases hd : dir ∈ dirs
  · simp [create_directories, hd]
  · cases hc : c
    · simp [create_directories, hd, hc] at h
    · simp [create_directories, hd, hc]

theorem mainRun_countP_mkdir (a : Args) (w : MainWorld) :
    (mainRun a w).2.countP Ev.isMkdir =
      if w.inputOpenOk = false ∨ w.parseOk = false then 0 else 1 := by
  cases hin : w.inputOpenOk <;>
  cases hp : w.parseOk <;>
  cases hmk : (create_directories w.fsDirs a.outputDir w.mkdirCanCreate).2 <;>
  cases hff : firstFailingConfig w.rtlConfigs <;>
  cases hc : (concretizeExternalModules w.externals).1 <;>
  cases hd : w.designVOpenOk <;>
  cases hsy : w.synthOpenOk <;>
  cases hcf : w.configOpenOk <;>
  cases hrl : a.runLibreLane <;>
  cases hfl : (runLibreLaneFlow w.flow a.libreLanePath a.outputDir
    a.designName).1 <;>
  simp [mainRun, hin, hp, hmk, hff, hc, hd, hsy, hcf, hrl, hfl, Ev.isMkdir,
    List.countP_cons, List.countP_append, concretize_countP_mkdir,
    flow_countP_mkdir]

theorem mainRun_mkdir_failure (a : Args) (w : MainWorld)
    (hmk : (create_directories w.fsDirs a.outputDir w.mkdirCanCreate).2 = false) :
    (mainRun a w).1 = 1 ∧
    (mainRun a w).2.countP Ev.isArtifactWrite = 0 := by
  cases hin : w.inputOpenOk <;>
  cases hp : w.parseOk <;>
  simp [mainRun, hin, hp, hmk, Ev.isArtifactWrite, List.countP_cons,
    List.countP_append]

/-! ## Claim C7 -/

/-- C7: output-directory creation is attempted at most once per run and
exactly once in every run that reaches it (i.e. whose input opens and
parses); creation is idempotent — a pre-existing directory succeeds without
change, and re-running creation after a successful creation succeeds without
change; and if creation fails the run exits with code 1 without attempting a
single artifact write. -/
theorem C7_mkdir_once_idempotent_failfast (a : Args) (w : MainWorld) :
    (mainRun a w).2.countP Ev.isMkdir ≤ 1 ∧
    (w.inputOpenOk = true → w.parseOk = true →
      (mainRun a w).2.countP Ev.isMkdir = 1) ∧
    (∀ dirs dir c, dir ∈ dirs → create_directories dirs dir c = (dirs, true)) ∧
    (∀ dirs dir c c₂, (create_directories dirs dir c).2 = true →
      create_directories (create_directories dirs dir c).1 dir c₂ =
        ((create_directories dirs dir c).1, true)) ∧
    ((create_directories w.fsDirs a.outputDir w.mkdirCanCreate).2 = false →
      (mainRun a w).1 = 1 ∧
      (mainRun a w).2.countP Ev.isArtifactWrite = 0) := by
  refine ⟨?_, ?_, create_directories_preexisting, create_directories_idem,
    mainRun_mkdir_failure a w⟩
  · rw [mainRun_countP_mkdir]
    split <;> simp
  · intro hin hp
    rw [mainRun_countP_mkdir]
    simp [hin, hp]

/-- Witness for C7 at a concrete run where output-directory creation fails. -/
theorem C7_witness :
    ((mainRun argsA worldMkdirFail).2.countP Ev.isMkdir ≤ 1 ∧
     (worldMkdirFail.inputOpenOk = true → worldMkdirFail.parseOk = true →
       (mainRun argsA worldMkdirFail).2.countP Ev.isMkdir = 1) ∧
     (∀ dirs dir c, dir ∈ dirs →
       create_directories dirs dir c = (dirs, true)) ∧
     (∀ dirs dir c c₂, (create_directories dirs dir c).2 = true →
       create_directories (create_directories dirs dir c).1 dir c₂ =
         ((create_directories dirs dir c).1, true)) ∧
     ((create_directories worldMkdirFail.fsDirs argsA.outputDir
        worldMkdirFail.mkdirCanCreate).2 = false →
       (mainRun argsA worldMkdirFail).1 = 1 ∧
       (mainRun argsA worldMkdirFail).2.countP Ev.isArtifactWrite = 0)) :=
  C7_mkdir_once_idempotent_failfast argsA worldMkdirFail

/-! ## Claim C4 -/

/-- C4: with a non-empty backend-flow path, the flow runner fails exactly
when the launcher script cannot be created, the executable-permission change
fails, or the child process exits non-zero; when the child exits non-zero the
diagnostic reports the child's exit code; the external flow child process is
run at most once (no retry). -/
theorem C4_flow_failure_exactly (fw : FlowWorld) (p o d : String)
    (hp : p ≠ "") :
    ((runLibreLaneFlow fw p o d).1 = false ↔
      (fw.scriptCreateOk = false ∨ fw.chmodOk = false ∨ fw.childExit ≠ 0)) ∧
    (fw.scriptCreateOk = true → fw.chmodOk = true → fw.childExit ≠ 0 →
      ∃ m, Ev.errMsg m ∈ (runLibreLaneFlow fw p o d).2 ∧
        containsStr m (toString fw.childExit)) ∧
    (runLibreLaneFlow fw p o d).2.countP Ev.isExec ≤ 1 := by
  refine ⟨?_, ?_, flow_countP_exec_le_one fw p o d⟩
  · cases hs : fw.scriptCreateOk <;> cases hch : fw.chmodOk <;>
    by_cases hce : fw.childExit = 0 <;>
    simp [runLibreLaneFlow, hp, hs, hch, hce]
  · intro hs hch hce
    refine ⟨"Error: LibreLane flow failed with exit code " ++
      toString fw.childExit ++ "\n", ?_, ?_⟩
    · simp [runLibreLaneFlow, hp, hs, hch, hce]
    · exact containsStr_append_right _ (containsStr_append_left _
        (containsStr_refl _))

/-- Witness for C4 at a concrete run where the child process exits with
code 2. -/
theorem C4_witness :
    (("ll" : String) ≠ "") ∧
    (((runLibreLaneFlow flowChildFailW "ll" "out" "dsg").1 = false ↔
       (flowChildFailW.scriptCreateOk = false ∨ flowChildFailW.chmodOk = false ∨
        flowChildFailW.childExit ≠ 0)) ∧
     (flowChildFailW.scriptCreateOk = true → flowChildFailW.chmodOk = true →
      flowChildFailW.childExit ≠ 0 →
       ∃ m, Ev.errMsg m ∈ (runLibreLaneFlow flowChildFailW "ll" "out" "dsg").2 ∧
         containsStr m (toString flowChildFailW.childExit)) ∧
     (runLibreLaneFlow flowChildFailW "ll" "out" "dsg").2.countP Ev.isExec ≤ 1) :=
  ⟨by decide, C4_flow_failure_exactly flowChildFailW "ll" "out" "dsg" (by decide)⟩

/-! ## Facts about failing concretization -/

theorem unresolved_isEmpty_false (ex : List Ext)
    (h : unresolvedNames ex ≠ []) : (unresolvedNames ex).isEmpty = false := by
  cases hu : unresolvedNames ex
  · exact absurd hu h
  · simp

theorem concretize_fails_of_unresolved (ex : List Ext)
    (h : unresolvedNames ex ≠ []) :
    (concretizeExternalModules ex).1 = false := by
  simp [concretizeExternalModules, unresolved_isEmpty_false ex h]

theorem concretize_errMsg_mem (ex : List Ext) (n : String)
    (hn : n ∈ unresolvedNames ex) :
    Ev.errMsg ("no RTL component matching external module " ++ n ++ "\n") ∈
      (concretizeExternalModules ex).2 := by
  have hne : (unresolvedNames ex).isEmpty = false :=
    unresolved_isEmpty_false ex (by intro hu; rw [hu] at hn; simp at hn)
  have heq : (concretizeExternalModules ex).2 =
      ((ex.filter (fun e => e.hasMatch && e.genOk)).map
        (fun e => Ev.concretizeWrite e.name)) ++
      ((unresolvedNames ex).map (fun n =>
        Ev.errMsg ("no RTL component matching external module " ++ n ++ "\n"))) ++
      ((genFailedNames ex).map (fun n =>
        Ev.errMsg ("failed to concretize external module " ++ n ++ "\n"))) := by
    simp [concretizeExternalModules, hne]
  rw [heq]
  exact List.mem_append_left _ (List.mem_append_right _
    (List.mem_map_of_mem _ hn))

/-! ## Claim C8 -/

/-- C8: when one or more external references have no matching generator rule,
the run exits with code 1 and, for every unresolved reference name, the error
stream carries a diagnostic containing that name verbatim. -/
theorem C8_diagnostic_names_unresolved (a : Args) (w : MainWorld)
    (hin : w.inputOpenOk = true) (hp : w.parseOk = true)
    (hmk : (create_directories w.fsDirs a.outputDir w.mkdirCanCreate).2 = true)
    (hff : firstFailingConfig w.rtlConfigs = none)
    (hu : unresolvedNames w.externals ≠ []) :
    (mainRun a w).1 = 1 ∧
    ∀ n ∈ unresolvedNames w.externals,
      ∃ m, Ev.errMsg m ∈ (mainRun a w).2 ∧ containsStr m n := by
  have hcf : (concretizeExternalModules w.externals).1 = false :=
    concretize_fails_of_unresolved _ hu
  have htr : mainRun a w =
      (1, [Ev.mkdirTry a.outputDir] ++ (concretizeExternalModules w.externals).2
        ++ [Ev.errMsg "Error: Failed to concretize external modules\n"]) := by
    simp [mainRun, hin, hp, hmk, hff, hcf]
  constructor
  · rw [htr]
  · intro n hn
    refine ⟨"no RTL component matching external module " ++ n ++ "\n", ?_, ?_⟩
    · rw [htr]
      exact List.mem_append_left _ (List.mem_append_right _
        (concretize_errMsg_mem w.externals n hn))
    · exact containsStr_append_right _ (containsStr_append_left _
        (containsStr_refl n))

/-- Witness for C8 at a concrete run whose only external reference `adder`
has no matching rule. -/
theorem C8_witness :
    (worldResFail.inputOpenOk = true ∧ worldResFail.parseOk = true ∧
     (create_directories worldResFail.fsDirs argsA.outputDir
       worldResFail.mkdirCanCreate).2 = true ∧
     firstFailingConfig worldResFail.rtlConfigs = none ∧
     unresolvedNames worldResFail.externals ≠ []) ∧
    ((mainRun argsA worldResFail).1 = 1 ∧
     ∀ n ∈ unresolvedNames worldResFail.externals,
       ∃ m, Ev.errMsg m ∈ (mainRun argsA worldResFail).2 ∧ containsStr m n) :=
  ⟨⟨by decide, by decide, by decide, by decide, by decide⟩,
   C8_diagnostic_names_unresolved argsA worldResFail (by decide) (by decide)
     (by decide) (by decide) (by decide)⟩

/-! ## Claim C9 -/

/-- C9: on a run that exits with code 0, the `<design-name>.v` file is
written with content equal to the concatenation, in the design's enumeration
order, of exactly one stub per top-level module; and each stub declares the
module (`module <name>();`) and closes it with `endmodule`. -/
theorem C9_design_file_stubs (a : Args) (w : MainWorld)
    (h : (mainRun a w).1 = 0) :
    Ev.fileWrite (a.outputDir ++ "/" ++ a.designName ++ ".v")
      (String.join (w.modules.map moduleStub)) ∈ (mainRun a w).2 ∧
    ∀ n, containsStr (moduleStub n) ("module " ++ n ++ "();\n") ∧
      containsStr (moduleStub n) "endmodule\n\n" := by
  have hin : w.inputOpenOk = true := by
    cases hin : w.inputOpenOk
    · simp [mainRun, hin] at h
    · rfl
  have hp : w.parseOk = true := by
    cases hp : w.parseOk
    · simp [mainRun, hin, hp] at h
    · rfl
  have hmk : (create_directories w.fsDirs a.outputDir w.mkdirCanCreate).2
      = true := by
    cases hmk : (create_directories w.fsDirs a.outputDir w.mkdirCanCreate).2
    · simp [mainRun, hin, hp, hmk] at h
    · rfl
  have hff : firstFailingConfig w.rtlConfigs = none := by
    cases hff : firstFailingConfig w.rtlConfigs
    · rfl
    · simp [mainRun, hin, hp, hmk, hff] at h
  have hc : (concretizeExternalModules w.externals).1 = true := by
    cases hc : (concretizeExternalModules w.externals).1
    · simp [mainRun, hin, hp, hmk, hff, hc] at h
    · rfl
  have hd : w.designVOpenOk = true := by
    cases hd : w.designVOpenOk
    · simp [mainRun, hin, hp, hmk, hff, hc, hd] at h
    · rfl
  constructor
  · cases hrl : a.runLibreLane
    · simp [mainRun, hin, hp, hmk, hff, hc, hd, hrl, designFileContent]
    · cases hfl : (runLibreLaneFlow w.flow a.libreLanePath a.outputDir
        a.designName).1
      · simp [mainRun, hin, hp, hmk, hff, hc, hd, hrl, hfl] at h
      · simp [mainRun, hin, hp, hmk, hff, hc, hd, hrl, hfl, designFileContent]
  · intro n
    constructor
    · exact containsStr_append_right _ (containsStr_append_right _
        (containsStr_append_left _ (containsStr_refl _)))
    · exact containsStr_append_left _ (containsStr_refl _)

/-- Witness for C9 at a concrete fully successful run. -/
theorem C9_witness :
    (mainRun argsA worldOk).1 = 0 ∧
    (Ev.fileWrite (argsA.outputDir ++ "/" ++ argsA.designName ++ ".v")
      (String.join (worldOk.modules.map moduleStub)) ∈
        (mainRun argsA worldOk).2 ∧
     ∀ n, containsStr (moduleStub n) ("module " ++ n ++ "();\n") ∧
       containsStr (moduleStub n) "endmodule\n\n") :=
  ⟨by decide, C9_design_file_stubs argsA worldOk (by decide)⟩

end ExportAsic
